import Mathlib

/-!
Verification of the CaramelBoard JoyTag bridge server
(`src/integrations/joytag/joytag_server.py`).

The Python program is a thin Flask HTTP bridge around a pre-trained
vision model.  We embed its pure structure shallowly:

* images are pixel grids (`Img`), pixel values are naturals 0..255;
* real-valued tensor arithmetic is carried out over `ℚ` (the Python
  floats enter only through fixed decimal constants and through the
  abstract model forward pass, which we keep as a function parameter);
* the Python `dict` built by `_predict_image` is an association list
  with Python insertion-order semantics (`dictInsert`);
* the Flask handlers become total functions from a request/environment
  model to a response model; a raised exception that reaches the
  catch-all handler becomes the `Resp.serverError` constructor (HTTP
  500) and an explicit `jsonify(...), 400` return becomes
  `Resp.clientError` (HTTP 400).

External libraries (PIL decoding, bicubic resampling, the torch
forward pass, `requests`) are modelled as opaque data or function
parameters; the control flow and arithmetic of `joytag_server.py`
itself is translated line by line.
-/

namespace JoyTagServer

/-- An RGB pixel; each component is a byte value 0..255.  PIL mode
"RGB" has no alpha channel, so pixels are opaque. -/
structure RGB where
  r : ℕ
  g : ℕ
  b : ℕ
deriving DecidableEq

/-- A decoded raster image: width, height and a pixel function.
`px x y` is the pixel at column `x`, row `y`. -/
structure Img where
  w : ℕ
  h : ℕ
  px : ℕ → ℕ → RGB

/-- Opaque white, the fill colour used by `_prepare_image`
(`Image.new("RGB", (m, m), (255, 255, 255))`). -/
def white : RGB := ⟨255, 255, 255⟩

/-- `Image.new(mode, (m, m), color)`: an `m`-by-`m` canvas filled with
a constant colour. -/
def imageNew (m : ℕ) (color : RGB) : Img :=
  { w := m, h := m, px := fun _ _ => color }

/-- `canvas.paste(image, (left, top))`: overwrite the rectangle of
`canvas` whose top-left corner is `(left, top)` with `image`, leaving
all other pixels of `canvas` unchanged. -/
def paste (canvas : Img) (image : Img) (left top : ℕ) : Img :=
  { canvas with
    px := fun x y =>
      if left ≤ x ∧ x < left + image.w ∧ top ≤ y ∧ y < top + image.h then
        image.px (x - left) (y - top)
      else
        canvas.px x y }

/-- Channel-first float tensor of shape (3, size, size), values in `ℚ`.
`val c x y` is channel `c` at column `x`, row `y`. -/
structure Tensor3 where
  size : ℕ
  val : Fin 3 → ℕ → ℕ → ℚ

/-- Channel extraction of a pixel: channel 0 is red, 1 green, 2 blue
(the channel-first layout produced by `TVF.pil_to_tensor`). -/
def chan (p : RGB) : Fin 3 → ℕ := ![p.r, p.g, p.b]

/-- The fixed per-channel normalization mean
`[0.48145466, 0.4578275, 0.40821073]`. -/
def clipMean : Fin 3 → ℚ :=
  ![48145466 / 100000000, 4578275 / 10000000, 40821073 / 100000000]

/-- The fixed per-channel normalization std
`[0.26862954, 0.26130258, 0.27577711]`. -/
def clipStd : Fin 3 → ℚ :=
  ![26862954 / 100000000, 26130258 / 100000000, 27577711 / 100000000]

/-- `_prepare_image(image, target)` translated from the source:
square-pad with white background at offsets `(m - w) // 2`,
`(m - h) // 2` where `m = max(w, h)`, resize to `target` when
`m != target`, convert to a float tensor scaled by `1/255`, then
normalize with the fixed mean/std.  The resampling kernel used by
`canvas.resize(..., Image.BICUBIC)` is the function parameter
`bicubic`. -/
def prepare_image (bicubic : Img → ℕ → Img) (image : Img) (target : ℕ) :
    Tensor3 :=
  let m := max image.w image.h
  let pad_l := (m - image.w) / 2
  let pad_t := (m - image.h) / 2
  let canvas0 := paste (imageNew m white) image pad_l pad_t
  let canvas := if m ≠ target then bicubic canvas0 target else canvas0
  { size := target
    val := fun c x y => ((chan (canvas.px x y) c : ℚ) / 255 - clipMean c) / clipStd c }

/-- The preprocessor as the specification words it: an `m`-by-`m`
opaque-white canvas holding the image centered at left/top offsets
`⌊(m - w) / 2⌋` and `⌊(m - h) / 2⌋`, resized to `t`-by-`t` with the
bicubic kernel exactly when `m ≠ t`, each pixel value scaled by
`1/255` and normalized channel-wise with the fixed mean and std. -/
def prepare_image_spec (bicubic : Img → ℕ → Img) (image : Img) (t : ℕ) :
    Tensor3 :=
  let m := max image.w image.h
  let padded : Img :=
    { w := m, h := m
      px := fun x y =>
        if (m - image.w) / 2 ≤ x ∧ x < (m - image.w) / 2 + image.w ∧
            (m - image.h) / 2 ≤ y ∧ y < (m - image.h) / 2 + image.h then
          image.px (x - (m - image.w) / 2) (y - (m - image.h) / 2)
        else
          white }
  let canvas := if m = t then padded else bicubic padded t
  { size := t
    val := fun c x y => ((chan (canvas.px x y) c : ℚ) / 255 - clipMean c) / clipStd c }

/-! ### The Python dict built by `_predict_image` -/

/-- One assignment `d[k] = v` on a Python dict represented as an
association list in insertion order: if `k` is already a key, its
value is updated in place (the key keeps its original position);
otherwise the pair is appended at the end. -/
def dictInsert (d : List (String × ℚ)) (k : String) (v : ℚ) :
    List (String × ℚ) :=
  if d.any (fun p => p.1 = k) then
    d.map fun p => if p.1 = k then (k, v) else p
  else
    d ++ [(k, v)]

/-- Helper for `buildScores`: inserts `tags[i] ↦ score i` for the
remaining tags, threading the running index `i` and the dict `d`. -/
def buildScoresAux (score : ℕ → ℚ) :
    List (String × ℚ) → ℕ → List String → List (String × ℚ)
  | d, _, [] => d
  | d, i, t :: ts => buildScoresAux score (dictInsert d t (score i)) (i + 1) ts

/-- The dict comprehension in `_predict_image`:
`scores = {top_tags[i]: float(scores_tensor[i]) for i in range(len(top_tags))}`.
Keys are inserted in index order `0, 1, …`; a repeated tag name
overwrites the earlier entry (Python dict semantics). -/
def buildScores (tags : List String) (score : ℕ → ℚ) : List (String × ℚ) :=
  buildScoresAux score [] 0 tags

/-- The keys of a dict, in order. -/
def keysOf (d : List (String × ℚ)) : List String := d.map Prod.fst

/-! ### Model state and the tagging pipeline -/

/-- The process-wide model state established by `initialize_model`:
the model input size, the model forward pass composed with sigmoid
(`_predict_tensor`, kept abstract: index `i` of the score vector), and
the loaded tag vocabulary `top_tags`. -/
structure ModelState where
  image_size : ℕ
  predictT : Tensor3 → ℕ → ℚ
  top_tags : List String

/-- `_predict_image(img, threshold)` translated from the source:
prepare the image at the model input size, run `_predict_tensor`,
build the name-to-score dict, and list the tags whose score is at
least the threshold (`sc >= threshold`, taken over the dict items in
insertion order).  Returns `(predicted, scores)`. -/
def predict_image (bicubic : Img → ℕ → Img) (st : ModelState)
    (img : Img) (threshold : ℚ) : List String × List (String × ℚ) :=
  let scoresT := st.predictT (prepare_image bicubic img st.image_size)
  let scores := buildScores st.top_tags scoresT
  let predicted :=
    (scores.filter fun p => decide (threshold ≤ p.2)).map Prod.fst
  (predicted, scores)

/-! ### The vocabulary loader (line 58 of the source) -/

/-- Python `str.strip()` whitespace test for the characters that can
occur in a text file line: space, tab, carriage return, newline,
form feed, vertical tab. -/
def isPyWs (c : Char) : Bool :=
  c = ' ' ∨ c = '\t' ∨ c = '\r' ∨ c = '\n' ∨ c = '\x0c' ∨ c = '\x0b'

/-- Python `str.strip()` on a list of characters: drop whitespace from
both ends. -/
def pyStrip (l : List Char) : List Char :=
  ((l.dropWhile isPyWs).reverse.dropWhile isPyWs).reverse

/-- `str.splitlines()` restricted to newline-terminated text: split a
character list at every `\n`. -/
def splitNl : List Char → List (List Char)
  | [] => [[]]
  | c :: cs =>
    if c = '\n' then [] :: splitNl cs
    else
      match splitNl cs with
      | [] => [[c]]
      | l :: ls => (c :: l) :: ls

/-- Line 58 of the source:
`top_tags = [ln.strip() for ln in tags_file.read_text(...).splitlines() if ln.strip()]`
— strip each line and keep the non-empty results, in file order. -/
def loadTags (content : List Char) : List String :=
  ((splitNl content).map pyStrip).filterMap fun l =>
    if l = [] then none else some (String.mk l)

/-! ### The HTTP layer -/

/-- A value supplied for the `threshold` field, as seen by Python
`float(...)`: either it converts to a float (`num q`), or the
conversion raises (`bad`, e.g. a non-numeric string or `null`). -/
inductive PyVal where
  | num (q : ℚ)
  | bad
deriving DecidableEq

/-- `float(v)` as a fallible conversion. -/
def pyFloat : PyVal → Option ℚ
  | .num q => some q
  | .bad => none

/-- Bytes that are supposed to be an image, as seen by
`Image.open(...)`: either they decode to an image, or decoding
raises. -/
inductive ImgData where
  | decodable (img : Img)
  | corrupt

/-- `Image.open(data).convert("RGB")` as a fallible decode. -/
def decodeImage : ImgData → Option Img
  | .decodable i => some i
  | .corrupt => none

/-- State of the path `files_root / file_key`: the file is absent
(`abs_path.exists()` is false), or present with some byte content. -/
inductive FileState where
  | absent
  | present (data : ImgData)

/-- Outcome of `requests.get(url, timeout=30)`: the request itself
raises (connection error, timeout), or an HTTP response arrives with a
status code and a body.  `r.raise_for_status()` raises exactly when
the status code is in the range 400..599; any other status (1xx, 3xx,
or an out-of-spec 600+) proceeds to image decoding. -/
inductive FetchResult where
  | fetchError
  | response (status : ℕ) (data : ImgData)

/-- The request environment: the configured files root, the state of
the filesystem, and the network. -/
structure Env where
  filesRoot : String
  fileAt : String → FileState
  fetch : String → FetchResult

/-- `Path(files_root) / data["file_key"]`. -/
def pathJoin (root key : String) : String := root ++ "/" ++ key

/-- A request to `/api/v1/tag`.  `json` carries the relevant entries of
the parsed JSON dict (`request.get_json() or {}`; a missing entry is
`none`); `form` carries the optional `image` file field and the
optional `threshold` form field of a multipart request. -/
inductive Request where
  | json (file_key : Option String) (image_url : Option String)
      (threshold : Option PyVal)
  | form (image : Option ImgData) (threshold : Option PyVal)

/-- A response from `/api/v1/tag`: a 200 payload
(`predicted_tags`, `tag_count`, `threshold`, `scores`; the
wall-clock `processing_time_ms` field is not modelled), a
`jsonify(\x7b"error": msg\x7d), 400` return, or the catch-all
`jsonify(\x7b"error": str(e)\x7d), 500` (the exception text is
abbreviated). -/
inductive Resp where
  | ok (predicted_tags : List String) (tag_count : ℕ) (threshold : ℚ)
      (scores : List (String × ℚ))
  | clientError (error : String)
  | serverError (error : String)
deriving DecidableEq

/-- Lines 110 to 134 of `api_tag`: dispatch on the content type and
resolve the image.  Returns either an early response (`Sum.inl`: an
explicit 400 return, or an exception propagating to the catch-all 500)
or the pair of the effective threshold and the `image` variable as it
stands when control reaches line 136 (`Sum.inr`). -/
def dispatch (env : Env) (dth : ℚ) : Request → Resp ⊕ (ℚ × Option Img)
  | .json fk url th =>
    match pyFloat (th.getD (.num dth)) with
    | none => .inl (.serverError "could not convert to float")
    | some threshold =>
      match fk with
      | some key =>
        match env.fileAt (pathJoin env.filesRoot key) with
        | .absent =>
          .inl (.clientError ("file not found: " ++ pathJoin env.filesRoot key))
        | .present d =>
          match decodeImage d with
          | none => .inl (.serverError "cannot identify image file")
          | some img => .inr (threshold, some img)
      | none =>
        match url with
        | some u =>
          match env.fetch u with
          | .fetchError => .inl (.serverError "request failed")
          | .response code d =>
            if 400 ≤ code ∧ code < 600 then
              .inl (.serverError "http error for url")
            else
              match decodeImage d with
              | none => .inl (.serverError "cannot identify image file")
              | some img => .inr (threshold, some img)
        | none => .inl (.clientError "missing file_key or image_url")
  | .form imgField th =>
    match imgField with
    | none => .inl (.clientError "no image file provided")
    | some d =>
      let threshold :=
        match th with
        | none => dth
        | some v => (pyFloat v).getD dth
      match decodeImage d with
      | none => .inl (.serverError "cannot identify image file")
      | some img => .inr (threshold, some img)

/-- The `/api/v1/tag` handler `api_tag`: dispatch, the
`if image is None` guard at line 136, then `_predict_image` and the
200 response with `tag_count = len(tags)`. -/
def api_tag (bicubic : Img → ℕ → Img) (st : ModelState) (env : Env)
    (dth : ℚ) (req : Request) : Resp :=
  match dispatch env dth req with
  | .inl r => r
  | .inr (_, none) => .clientError "no image resolved"
  | .inr (threshold, some img) =>
    let r := predict_image bicubic st img threshold
    .ok r.1 r.1.length threshold r.2

/-! ### The `/health` handler -/

/-- The process globals that `health` reads: whether `model` is not
`None`, the `top_tags` global (possibly still `None`), and the
`device` string. -/
structure ProcState where
  modelLoaded : Bool
  top_tags : Option (List String)
  device : String

/-- The JSON body returned by `/health`. -/
structure HealthResp where
  status : String
  joytag : String
  device : String
  tags : ℕ
  version : String
deriving DecidableEq

/-- The `/health` handler: always a 200 with a fixed-shape JSON body;
`services.joytag` is "ready" when the model is loaded and "loading"
otherwise, and `tags` is `len(top_tags or [])`. -/
def health (s : ProcState) : ℕ × HealthResp :=
  (200,
    { status := "ok"
      joytag := if s.modelLoaded then "ready" else "loading"
      device := s.device
      tags := (s.top_tags.getD []).length
      version := "cb-joytag-bridge-1" })

/-! ### Concrete fixtures used to instantiate theorems -/

/-- A stand-in resampling kernel for concrete evaluation. -/
def rz0 : Img → ℕ → Img := fun i _ => i

/-- A one-pixel white image. -/
def img1 : Img := ⟨1, 1, fun _ _ => white⟩

/-- A model state with one tag whose score is always `1`. -/
def st1 : ModelState := ⟨1, fun _ _ => 1, ["a"]⟩

/-- A model state whose vocabulary repeats a tag name; the score
vector is the index itself. -/
def stDup : ModelState := ⟨1, fun _ i => (i : ℚ), ["a", "a"]⟩

/-- An environment with no files and a network that answers HTTP 404
with a decodable body to every GET. -/
def env0 : Env :=
  ⟨"/data", fun _ => .absent, fun _ => .response 404 (.decodable img1)⟩

/-- An environment whose network answers the out-of-spec status 600
with a decodable body to every GET; `raise_for_status` does not raise
on it. -/
def env600 : Env :=
  ⟨"/data", fun _ => .absent, fun _ => .response 600 (.decodable img1)⟩

/-! ### Lemmas about the dict model -/

theorem keysOf_cons (p : String × ℚ) (d : List (String × ℚ)) :
    keysOf (p :: d) = p.1 :: keysOf d := rfl

theorem any_key_eq (d : List (String × ℚ)) (k : String) :
    (d.any fun p => p.1 = k) = true ↔ k ∈ keysOf d := by
  simp [List.any_eq_true, keysOf, List.mem_map]

theorem keysOf_map_update (d : List (String × ℚ)) (k : String) (v : ℚ) :
    keysOf (d.map fun p => if p.1 = k then (k, v) else p) = keysOf d := by
  induction d with
  | nil => rfl
  | cons p d ih =>
    simp only [List.map_cons, keysOf_cons, ih]
    by_cases h : p.1 = k
    · rw [if_pos h, h]
    · rw [if_neg h]

theorem keysOf_dictInsert (d : List (String × ℚ)) (k : String) (v : ℚ) :
    keysOf (dictInsert d k v) =
      if k ∈ keysOf d then keysOf d else keysOf d ++ [k] := by
  by_cases hk : k ∈ keysOf d
  · rw [if_pos hk, dictInsert, if_pos ((any_key_eq d k).mpr hk), keysOf_map_update]
  · rw [if_neg hk, dictInsert, if_neg (fun hc => hk ((any_key_eq d k).mp hc))]
    simp [keysOf]

theorem nodup_keysOf_dictInsert (d : List (String × ℚ)) (k : String) (v : ℚ)
    (h : (keysOf d).Nodup) : (keysOf (dictInsert d k v)).Nodup := by
  rw [keysOf_dictInsert]
  by_cases hk : k ∈ keysOf d
  · rwa [if_pos hk]
  · rw [if_neg hk]
    simp [List.nodup_append, h, hk]

theorem nodup_keysOf_buildScoresAux (score : ℕ → ℚ) (tags : List String) :
    ∀ (d : List (String × ℚ)) (i : ℕ), (keysOf d).Nodup →
      (keysOf (buildScoresAux score d i tags)).Nodup := by
  induction tags with
  | nil => intro d i h; exact h
  | cons t ts ih =>
    intro d i h
    exact ih _ _ (nodup_keysOf_dictInsert d t (score i) h)

theorem nodup_keysOf_buildScores (tags : List String) (score : ℕ → ℚ) :
    (keysOf (buildScores tags score)).Nodup :=
  nodup_keysOf_buildScoresAux score tags [] 0 List.nodup_nil

theorem value_unique : ∀ (d : List (String × ℚ)), (keysOf d).Nodup →
    ∀ (k : String) (v₁ v₂ : ℚ), (k, v₁) ∈ d → (k, v₂) ∈ d → v₁ = v₂ := by
  intro d
  induction d with
  | nil => intro _ k v₁ v₂ h₁; cases h₁
  | cons p d ih =>
    intro h k v₁ v₂ h₁ h₂
    rw [keysOf_cons, List.nodup_cons] at h
    rcases List.mem_cons.mp h₁ with h₁ | h₁ <;>
      rcases List.mem_cons.mp h₂ with h₂ | h₂
    · rw [← h₂] at h₁
      exact ((Prod.mk.injEq _ _ _ _).mp h₁).2
    · refine absurd (List.mem_map_of_mem Prod.fst h₂) ?_
      rw [← h₁] at h
      exact h.1
    · refine absurd (List.mem_map_of_mem Prod.fst h₁) ?_
      rw [← h₂] at h
      exact h.1
    · exact ih h.2 k v₁ v₂ h₁ h₂

theorem mem_predicted_iff (scores : List (String × ℚ)) (th : ℚ) (tg : String) :
    tg ∈ (scores.filter fun p => decide (th ≤ p.2)).map Prod.fst ↔
      ∃ sc, (tg, sc) ∈ scores ∧ th ≤ sc := by
  simp only [List.mem_map, List.mem_filter, decide_eq_true_eq]
  constructor
  · rintro ⟨⟨a, b⟩, ⟨hmem, hle⟩, rfl⟩
    exact ⟨b, hmem, hle⟩
  · rintro ⟨sc, hmem, hle⟩
    exact ⟨(tg, sc), ⟨hmem, hle⟩, rfl⟩

theorem dictInsert_of_not_mem (d : List (String × ℚ)) (k : String) (v : ℚ)
    (h : k ∉ keysOf d) : dictInsert d k v = d ++ [(k, v)] := by
  rw [dictInsert, if_neg (fun hc => h ((any_key_eq d k).mp hc))]

theorem keysOf_buildScoresAux_of_nodup (score : ℕ → ℚ) :
    ∀ (tags : List String) (d : List (String × ℚ)) (i : ℕ), tags.Nodup →
      (∀ t ∈ tags, t ∉ keysOf d) →
      keysOf (buildScoresAux score d i tags) = keysOf d ++ tags := by
  intro tags
  induction tags with
  | nil => intro d i _ _; simp [buildScoresAux]
  | cons t ts ih =>
    intro d i hnd hdisj
    have hfresh : t ∉ keysOf d := hdisj t (List.mem_cons_self t ts)
    have hkeys : keysOf (d ++ [(t, score i)]) = keysOf d ++ [t] := by
      simp [keysOf]
    have hdisj' : ∀ s ∈ ts, s ∉ keysOf (d ++ [(t, score i)]) := by
      intro s hs
      rw [hkeys]
      simp only [List.mem_append, List.mem_singleton]
      rintro (hsd | rfl)
      · exact hdisj s (List.mem_cons_of_mem t hs) hsd
      · exact (List.nodup_cons.mp hnd).1 hs
    calc keysOf (buildScoresAux score d i (t :: ts))
        = keysOf (buildScoresAux score (d ++ [(t, score i)]) (i + 1) ts) := by
          rw [buildScoresAux, dictInsert_of_not_mem d t (score i) hfresh]
      _ = keysOf (d ++ [(t, score i)]) ++ ts :=
          ih (d ++ [(t, score i)]) (i + 1) (List.Nodup.of_cons hnd) hdisj'
      _ = keysOf d ++ t :: ts := by rw [hkeys, List.append_assoc]; rfl

theorem keysOf_buildScores_of_nodup (tags : List String) (score : ℕ → ℚ)
    (h : tags.Nodup) : keysOf (buildScores tags score) = tags := by
  have := keysOf_buildScoresAux_of_nodup score tags [] 0 h
    (by intro t _; simp [keysOf])
  simpa [buildScores, keysOf] using this

/-! ### Claim theorems -/

/-- C4: for every decoded image of width `w` and height `h` and every
target size `t`, `_prepare_image` pads the image onto an `m`-by-`m`
opaque-white canvas with `m = max w h` at left/top offsets
`⌊(m - w) / 2⌋` and `⌊(m - h) / 2⌋`, resizes the canvas to `t`-by-`t`
with the bicubic kernel exactly when `m ≠ t`, scales pixel values by
`1/255`, and normalizes each channel with the fixed mean
`[0.48145466, 0.4578275, 0.40821073]` and std
`[0.26862954, 0.26130258, 0.27577711]`, as a deterministic pure
function (stated as an equality of the translated source with the
definition transcribed from the specification words). -/
theorem prepare_image_eq_spec (bicubic : Img → ℕ → Img) (image : Img)
    (t : ℕ) : prepare_image bicubic image t = prepare_image_spec bicubic image t := by
  by_cases h : max image.w image.h = t
  · simp [prepare_image, prepare_image_spec, h, paste, imageNew]
  · simp [prepare_image, prepare_image_spec, h, paste, imageNew]

/-- C2: for every image and every threshold, a tag name carried by the
returned score mapping is in `predicted_tags` exactly when its score is
at least the threshold; in particular a score equal to the threshold is
included. -/
theorem predicted_iff_score_ge (bicubic : Img → ℕ → Img) (st : ModelState)
    (img : Img) (th : ℚ) (tg : String) (sc : ℚ)
    (h : (tg, sc) ∈ (predict_image bicubic st img th).2) :
    tg ∈ (predict_image bicubic st img th).1 ↔ th ≤ sc := by
  have hnd := nodup_keysOf_buildScores st.top_tags
    (st.predictT (prepare_image bicubic img st.image_size))
  have h2 : (predict_image bicubic st img th).2 =
      buildScores st.top_tags
        (st.predictT (prepare_image bicubic img st.image_size)) := rfl
  have h1 : (predict_image bicubic st img th).1 =
      ((buildScores st.top_tags
          (st.predictT (prepare_image bicubic img st.image_size))).filter
        fun p => decide (th ≤ p.2)).map Prod.fst := rfl
  rw [h2] at h
  rw [h1, mem_predicted_iff]
  constructor
  · rintro ⟨sc', hmem, hle⟩
    rw [value_unique _ hnd tg sc sc' h hmem]
    exact hle
  · intro hle
    exact ⟨sc, h, hle⟩

/-- Witness for C2 at a concrete boundary input: the single tag scores
exactly `1` and the threshold is `1`, so the tag is predicted. -/
theorem predicted_iff_score_ge_witness :
    (("a", (1 : ℚ)) ∈ (predict_image rz0 st1 img1 1).2) ∧
    ("a" ∈ (predict_image rz0 st1 img1 1).1 ↔ (1 : ℚ) ≤ 1) :=
  ⟨by decide, predicted_iff_score_ge rz0 st1 img1 1 "a" 1 (by decide)⟩

/-- C3 counterexample: the loader keeps repeated vocabulary lines
(`loadTags "a\na" = ["a", "a"]`), but for that vocabulary the score
dict collapses the two entries into one, so the mapping does not have
one entry per vocabulary tag in vocabulary order. -/
theorem scores_not_aligned_for_dup_vocab :
    loadTags "a\na".toList = ["a", "a"] ∧
    stDup.top_tags = loadTags "a\na".toList ∧
    ¬ ((predict_image rz0 stDup img1 0).2.length = stDup.top_tags.length ∧
        keysOf (predict_image rz0 stDup img1 0).2 = stDup.top_tags) := by
  refine ⟨by decide, by decide, ?_⟩
  rintro ⟨hlen, -⟩
  revert hlen
  decide

/-- C3 amended: for every vocabulary without repeated tag names, the
returned score mapping has exactly one entry per vocabulary tag, in
the same order as the vocabulary tag list; a repeated name makes the
later entry overwrite the earlier one instead. -/
theorem scores_aligned_of_nodup (bicubic : Img → ℕ → Img) (st : ModelState)
    (img : Img) (th : ℚ) (h : st.top_tags.Nodup) :
    keysOf (predict_image bicubic st img th).2 = st.top_tags ∧
    (predict_image bicubic st img th).2.length = st.top_tags.length := by
  have hk : keysOf (predict_image bicubic st img th).2 = st.top_tags :=
    keysOf_buildScores_of_nodup _ _ h
  refine ⟨hk, ?_⟩
  have := congrArg List.length hk
  simpa [keysOf] using this

/-- Witness for the amended C3 on the one-tag model state. -/
theorem scores_aligned_of_nodup_witness :
    keysOf (predict_image rz0 st1 img1 0).2 = st1.top_tags ∧
    (predict_image rz0 st1 img1 0).2.length = st1.top_tags.length :=
  scores_aligned_of_nodup rz0 st1 img1 0 (by decide)

/-- C8: two runs of the tagging pipeline on the same image and
threshold (with the same deterministic forward pass) return identical
predicted tags and identical scores. -/
theorem predict_image_deterministic (bicubic : Img → ℕ → Img)
    (st : ModelState) (img : Img) (th : ℚ)
    (r₁ r₂ : List String × List (String × ℚ))
    (h₁ : r₁ = predict_image bicubic st img th)
    (h₂ : r₂ = predict_image bicubic st img th) :
    r₁.1 = r₂.1 ∧ r₁.2 = r₂.2 := by
  subst h₁
  subst h₂
  exact ⟨rfl, rfl⟩

/-- Witness for C8: two concrete runs on the fixture input agree. -/
theorem predict_image_deterministic_witness :
    (predict_image rz0 st1 img1 0).1 = (predict_image rz0 st1 img1 0).1 ∧
    (predict_image rz0 st1 img1 0).2 = (predict_image rz0 st1 img1 0).2 :=
  predict_image_deterministic rz0 st1 img1 0 _ _ rfl rfl

/-- C1 counterexample: a JSON request whose `image_url` GET returns
HTTP 404 makes `r.raise_for_status()` raise; the exception reaches the
catch-all handler, so the endpoint answers with the 500 server error,
not a 400 client error.  Moreover the claim's "non-2xx" scope is
wrong in a second way: a GET answered with the out-of-spec status 600
(outside the 400..599 range where `raise_for_status` raises) and a
decodable image body is served as a 200 success, so a non-2xx status
need not produce an error response at all. -/
theorem fetch_failure_gives_500_counterexample :
    (env0.fetch "http://host/img" = .response 404 (.decodable img1) ∧
      api_tag rz0 st1 env0 1 (.json none (some "http://host/img") none) =
        .serverError "http error for url") ∧
    (env600.fetch "http://host/img" = .response 600 (.decodable img1) ∧
      api_tag rz0 st1 env600 1 (.json none (some "http://host/img") none) =
        .ok ["a"] 1 1 [("a", 1)]) :=
  ⟨⟨rfl, by decide⟩, ⟨rfl, by decide⟩⟩

/-- C1 amended: for every tagging request that supplies an `image_url`
whose HTTP GET fails in the sense that `raise_for_status` raises — a
fetch error, or an HTTP status in the range 400..599 — the endpoint
returns the catch-all 500 server error carrying the exception message,
not a 400 (statuses outside that range proceed to image decoding
instead). -/
theorem fetch_failure_gives_500 (bicubic : Img → ℕ → Img)
    (st : ModelState) (env : Env) (dth : ℚ) (url : String)
    (thv : Option PyVal) (q : ℚ)
    (hth : pyFloat (thv.getD (.num dth)) = some q)
    (hfail : env.fetch url = .fetchError ∨
      ∃ code d, env.fetch url = .response code d ∧ 400 ≤ code ∧ code < 600) :
    ∃ msg, api_tag bicubic st env dth (.json none (some url) thv) =
      .serverError msg := by
  rcases hfail with hf | ⟨code, d, hf, hc⟩
  · exact ⟨"request failed", by simp [api_tag, dispatch, hth, hf]⟩
  · exact ⟨"http error for url",
      by simp [api_tag, dispatch, hth, hf, hc.1, hc.2]⟩

/-- Witness for the amended C1 on the 404-everywhere environment. -/
theorem fetch_failure_gives_500_witness :
    ∃ msg, api_tag rz0 st1 env0 1 (.json none (some "u") (some (.num 1))) =
      .serverError msg :=
  fetch_failure_gives_500 rz0 st1 env0 1 "u" (some (.num 1)) 1 rfl
    (Or.inr ⟨404, .decodable img1, rfl, by norm_num, by norm_num⟩)

/-- C5: for every JSON request carrying both `file_key` and
`image_url`, the response is the same as for the request without the
`image_url`, and it does not depend on the network at all — the image
is resolved from `file_key` alone and the URL is never fetched. -/
theorem file_key_priority (bicubic : Img → ℕ → Img) (st : ModelState)
    (root : String) (fileAt : String → FileState)
    (fetch₁ fetch₂ : String → FetchResult) (dth : ℚ) (fk url : String)
    (thv : Option PyVal) :
    api_tag bicubic st ⟨root, fileAt, fetch₁⟩ dth
      (.json (some fk) (some url) thv) =
    api_tag bicubic st ⟨root, fileAt, fetch₂⟩ dth
      (.json (some fk) none thv) := rfl

/-- C6 counterexample: a JSON request lacking both `file_key` and
`image_url` but whose `threshold` entry does not convert to a float is
answered by the catch-all 500 (the conversion at line 112 raises
before the missing-fields check at line 124), not by the 400
missing-fields response. -/
theorem missing_keys_bad_threshold_counterexample :
    api_tag rz0 st1 env0 1 (.json none none (some .bad)) =
      .serverError "could not convert to float" := rfl

/-- C6 amended: a JSON request lacking both `file_key` and `image_url`
and whose `threshold` entry (when present) converts to a float is
answered with status 400 and body with error
"missing file_key or image_url". -/
theorem missing_keys_400 (bicubic : Img → ℕ → Img) (st : ModelState)
    (env : Env) (dth : ℚ) (thv : Option PyVal) (q : ℚ)
    (hth : pyFloat (thv.getD (.num dth)) = some q) :
    api_tag bicubic st env dth (.json none none thv) =
      .clientError "missing file_key or image_url" := by
  simp [api_tag, dispatch, hth]

/-- Witness for the amended C6 with no threshold entry. -/
theorem missing_keys_400_witness :
    api_tag rz0 st1 env0 1 (.json none none none) =
      .clientError "missing file_key or image_url" :=
  missing_keys_400 rz0 st1 env0 1 none 1 rfl

/-- C7: for every process state — model loaded or not, vocabulary
loaded or not — `/health` answers 200 with status "ok", readiness
"ready" exactly when the model is loaded and "loading" otherwise, the
active device, the vocabulary size (`len(top_tags or [])`), and the
fixed version string; the handler is total, so it never errors. -/
theorem health_always_ok (s : ProcState) :
    (health s).1 = 200 ∧
    (health s).2.status = "ok" ∧
    (health s).2.joytag = (if s.modelLoaded then "ready" else "loading") ∧
    (health s).2.device = s.device ∧
    (health s).2.tags = (s.top_tags.getD []).length ∧
    (health s).2.version = "cb-joytag-bridge-1" :=
  ⟨rfl, rfl, rfl, rfl, rfl, rfl⟩

/-- C9: threshold parsing depends on the content type.  A multipart
request whose `threshold` form field does not parse as a float behaves
exactly like one with no `threshold` field (the `try/except: pass`
swallows the error and the process default is used; with a decodable
upload the call still succeeds at the default threshold), whereas a
JSON request whose `threshold` value does not convert raises at line
112 and the call fails with the catch-all 500. -/
theorem threshold_parse_content_type_dependent :
    (∀ (bicubic : Img → ℕ → Img) (st : ModelState) (env : Env) (dth : ℚ)
        (d : Option ImgData),
      api_tag bicubic st env dth (.form d (some .bad)) =
        api_tag bicubic st env dth (.form d none)) ∧
    (∀ (bicubic : Img → ℕ → Img) (st : ModelState) (env : Env) (dth : ℚ)
        (img : Img),
      api_tag bicubic st env dth (.form (some (.decodable img)) (some .bad)) =
        .ok (predict_image bicubic st img dth).1
          (predict_image bicubic st img dth).1.length dth
          (predict_image bicubic st img dth).2) ∧
    (∀ (bicubic : Img → ℕ → Img) (st : ModelState) (env : Env) (dth : ℚ)
        (fk url : Option String),
      api_tag bicubic st env dth (.json fk url (some .bad)) =
        .serverError "could not convert to float") :=
  ⟨fun _ _ _ _ _ => rfl, fun _ _ _ _ _ => rfl, fun _ _ _ _ _ _ => rfl⟩

/-- C10: on every control path of `api_tag`, the dispatch either
returns early or resolves an image, so the post-dispatch
`if image is None` guard never fires and the 400 branch with body
"no image resolved" is unreachable. -/
theorem no_image_resolved_unreachable (env : Env) (dth : ℚ) (req : Request)
    (th : ℚ) :
    dispatch env dth req ≠ Sum.inr (th, (none : Option Img)) := by
  cases req with
  | json fk url thv =>
    cases hpf : pyFloat (thv.getD (.num dth)) with
    | none => simp [dispatch, hpf]
    | some q =>
      cases fk with
      | some key =>
        cases hfs : env.fileAt (pathJoin env.filesRoot key) with
        | absent => simp [dispatch, hpf, hfs]
        | present d => cases d <;> simp [dispatch, hpf, hfs, decodeImage]
      | none =>
        cases url with
        | some u =>
          cases hf : env.fetch u with
          | fetchError => simp [dispatch, hpf, hf]
          | response code d =>
            by_cases hc : 400 ≤ code ∧ code < 600
            · simp [dispatch, hpf, hf, hc]
            · cases d <;> simp [dispatch, hpf, hf, hc, decodeImage]
        | none => simp [dispatch, hpf]
  | form imgField thv =>
    cases imgField with
    | none => simp [dispatch]
    | some d => cases d <;> simp [dispatch, decodeImage]

end JoyTagServer
